import Mathlib

/-!
Shallow embedding of the `rsync-system-backup` Python package
(https://github.com/xolox/python-rsync-system-backup).

The embedding covers:

* `destinations.py`: the `Destination` class, the four compiled regular
  expression grammars (`ADVANCED_DAEMON_DESTINATION`,
  `SIMPLE_DAEMON_DESTINATION`, `SSH_DESTINATION`, `LOCAL_DESTINATION`),
  the `expression` getter and setter.
* `__init__.py`: the control flow of `RsyncSystemBackup.execute` /
  `execute_helper` and of the phase methods `unlock_device`,
  `mount_filesystem`, `transfer_changes`, `create_snapshot`,
  `rotate_snapshots`, with the outcomes of external commands supplied as
  oracle fields of an `EngineConfig`.
* `cli.py`: `enable_explicit_action` and the exit code logic of `main`.

The regular expression grammars are embedded as hand written matchers that
implement the exact semantics of the Python `re` module on these four
patterns, including the facts that `.` does not match a newline, that `$`
matches at the end of the string or just before a newline that ends the
string, and that an optional group `( ... )?` is tried greedily and dropped
on backtracking.  `\d` is modelled as an ASCII digit.
-/

/-- `exceptions.py`: the exception classes raised by the package, together
with the two foreign exception kinds that the control flow of the package
depends on (`executor.ExternalCommandFailed`, and Python's `AttributeError`
which arises when the crypttab entry is `None`). -/
inductive PyError where
  | invalidDestinationError
  | missingBackupDiskError
  | failedToUnlockError
  | failedToMountError
  | destinationContextUnavailable
  | parentDirectoryUnavailable
  | externalCommandFailed
  | attributeError
deriving DecidableEq, Repr

/-- `exceptions.py`: which errors are instances of `RsyncSystemBackupError`. -/
def isRsyncSystemBackupError : PyError → Bool
  | .externalCommandFailed => false
  | .attributeError => false
  | _ => true

/-- `destinations.py`: `RSYNCD_PORT = 873`, the default port of the rsync
daemon. -/
def RSYNCD_PORT : Nat := 873

/-- `destinations.py`, class `Destination`: the mutable properties and their
defaults (`username`, `hostname`, `module`, `directory` default to the empty
string, `port_number` defaults to `RSYNCD_PORT`). -/
structure Destination where
  username : String := ""
  hostname : String := ""
  module : String := ""
  directory : String := ""
  port_number : Nat := RSYNCD_PORT
deriving DecidableEq, Repr

/-- The named groups captured by one of the four destination patterns.
`none` models a group that did not participate in the match; `some ""`
models a group that matched the empty string.  The `expression` setter
treats both the same way (both are falsy in Python). -/
structure Captures where
  username : Option String := none
  hostname : Option String := none
  module : Option String := none
  directory : Option String := none
  port_number : Option String := none
deriving DecidableEq, Repr

/-- Decidable equality for `Except`, used to evaluate the embedded
functions at concrete inputs. -/
instance {ε α : Type} [DecidableEq ε] [DecidableEq α] : DecidableEq (Except ε α)
  | .ok a, .ok b =>
    if h : a = b then .isTrue (by rw [h]) else .isFalse (by simp [h])
  | .error a, .error b =>
    if h : a = b then .isTrue (by rw [h]) else .isFalse (by simp [h])
  | .ok _, .error _ => .isFalse (by simp)
  | .error _, .ok _ => .isFalse (by simp)

/-- Greedy run of characters satisfying `p` together with the rest of the
input; the semantics of a maximal `[...]+` / `[...]*` character class run. -/
def spanP (p : Char → Bool) : List Char → List Char × List Char
  | [] => ([], [])
  | c :: cs =>
    if p c then
      let r := spanP p cs
      (c :: r.1, r.2)
    else ([], c :: cs)

/-- The optional group `((?P<username>[^@]+)@)?`: a non-empty maximal run of
characters other than `@`, followed by a literal `@`.  Returns the username
characters and the rest of the input when the group can participate. -/
def userSplit (l : List Char) : Option (List Char × List Char) :=
  let r := spanP (fun c => c != '@') l
  match r.2 with
  | '@' :: rest => if r.1.isEmpty then none else some (r.1, rest)
  | _ => none

/-- The tail `(?P<module>[^/]+)(/(?P<directory>.*))?$` shared by the two
daemon patterns: a non-empty module name (any characters except `/`),
optionally followed by `/` and a directory (`.` does not match a newline),
with `$` matching at the end of the input or just before a newline that
ends the input. -/
def moduleDirEnd (l : List Char) : Option (String × Option String) :=
  let r := spanP (fun c => c != '/') l
  if r.1.isEmpty then none
  else
    match r.2 with
    | [] => some (String.mk r.1, none)
    | '/' :: rest =>
      let d := spanP (fun c => c != '\n') rest
      if d.2 = [] ∨ d.2 = ['\n'] then some (String.mk r.1, some (String.mk d.1))
      else none
    | _ => none

/-- `ADVANCED_DAEMON_DESTINATION` after the literal `rsync://` and the
optional username group: `(?P<hostname>[^:/]+)(:(?P<port_number>\d+))?
/(?P<module>[^/]+)(/(?P<directory>.*))?$`. -/
def advCore (l : List Char) : Option Captures :=
  let r := spanP (fun c => c != ':' && c != '/') l
  if r.1.isEmpty then none
  else
    match r.2 with
    | ':' :: rest =>
      let p := spanP Char.isDigit rest
      if p.1.isEmpty then none
      else
        match p.2 with
        | '/' :: rest2 =>
          (moduleDirEnd rest2).map fun md =>
            { hostname := some (String.mk r.1), port_number := some (String.mk p.1),
              module := some md.1, directory := md.2 }
        | _ => none
    | '/' :: rest =>
      (moduleDirEnd rest).map fun md =>
        { hostname := some (String.mk r.1), module := some md.1, directory := md.2 }
    | _ => none

/-- `destinations.py`, `ADVANCED_DAEMON_DESTINATION`:
`^rsync://((?P<username>[^@]+)@)?(?P<hostname>[^:/]+)(:(?P<port_number>\d+))?
/(?P<module>[^/]+)(/(?P<directory>.*))?$`.  The optional username group is
tried first and dropped when the rest of the pattern cannot match. -/
def matchAdvancedL : List Char → Option Captures
  | 'r' :: 's' :: 'y' :: 'n' :: 'c' :: ':' :: '/' :: '/' :: rest =>
    (match userSplit rest with
     | some ur =>
       match advCore ur.2 with
       | some c => some { c with username := some (String.mk ur.1) }
       | none => advCore rest
     | none => advCore rest)
  | _ => none

/-- `SIMPLE_DAEMON_DESTINATION` after the optional username group:
`(?P<hostname>[^:]+)::(?P<module>[^/]+)(/(?P<directory>.*))?$`. -/
def simpleCore (l : List Char) : Option Captures :=
  let r := spanP (fun c => c != ':') l
  if r.1.isEmpty then none
  else
    match r.2 with
    | ':' :: ':' :: rest =>
      (moduleDirEnd rest).map fun md =>
        { hostname := some (String.mk r.1), module := some md.1, directory := md.2 }
    | _ => none

/-- `destinations.py`, `SIMPLE_DAEMON_DESTINATION`:
`^((?P<username>[^@]+)@)?(?P<hostname>[^:]+)::(?P<module>[^/]+)
(/(?P<directory>.*))?$`. -/
def matchSimpleL (l : List Char) : Option Captures :=
  match userSplit l with
  | some ur =>
    match simpleCore ur.2 with
    | some c => some { c with username := some (String.mk ur.1) }
    | none => simpleCore l
  | none => simpleCore l

/-- `SSH_DESTINATION` after the optional username group:
`(?P<hostname>[^:]+):(?P<directory>.*)` (no `$` anchor: `re.match` only
requires a matching prefix, and `.*` stops at a newline). -/
def sshCore (l : List Char) : Option Captures :=
  let r := spanP (fun c => c != ':') l
  if r.1.isEmpty then none
  else
    match r.2 with
    | ':' :: rest =>
      some { hostname := some (String.mk r.1),
             directory := some (String.mk (spanP (fun c => c != '\n') rest).1) }
    | _ => none

/-- `destinations.py`, `SSH_DESTINATION`:
`^((?P<username>[^@]+)@)?(?P<hostname>[^:]+):(?P<directory>.*)`. -/
def matchSSHL (l : List Char) : Option Captures :=
  match userSplit l with
  | some ur =>
    match sshCore ur.2 with
    | some c => some { c with username := some (String.mk ur.1) }
    | none => sshCore l
  | none => sshCore l

/-- `destinations.py`, `LOCAL_DESTINATION`: `^(?P<directory>.+)$`.
`.` does not match a newline and `$` matches at the end of the string or
just before a newline that ends the string. -/
def matchLocalL (l : List Char) : Option Captures :=
  let r := spanP (fun c => c != '\n') l
  if r.1.isEmpty then none
  else if r.2 = [] ∨ r.2 = ['\n'] then some { directory := some (String.mk r.1) }
  else none

/-- `destinations.py`, `DESTINATION_PATTERNS`: the patterns tried in order
of decreasing specificity; the first match wins. -/
def matchFirstL (l : List Char) : Option Captures :=
  match matchAdvancedL l with
  | some c => some c
  | none =>
    match matchSimpleL l with
    | some c => some c
    | none =>
      match matchSSHL l with
      | some c => some c
      | none => matchLocalL l

/-- Python `int()` applied to the string captured by `\d+` (the
`port_number` setter coerces captured port numbers to integers). -/
def natOfDigits (s : String) : Nat :=
  s.data.foldl (fun n c => 10 * n + (c.toNat - 48)) 0

/-- One field update of `set_properties(**non_empty)`: a field is only
overwritten when its capture participated and is non-empty. -/
def pickNonEmpty (new : Option String) (old : String) : String :=
  match new with
  | some s => if s = "" then old else s
  | none => old

/-- The `port_number` update: a non-empty captured port string is coerced
to an integer by the `port_number` setter, otherwise the old value is kept. -/
def pickPort (new : Option String) (old : Nat) : Nat :=
  match new with
  | some s => if s = "" then old else natOfDigits s
  | none => old

/-- `destinations.py`, `expression` setter body: `non_empty = dict((n, c)
for n, c in captures.items() if c)` followed by `self.set_properties
(**non_empty)` — only non-empty captures overwrite the current fields. -/
def applyCaptures (d : Destination) (c : Captures) : Destination :=
  { username := pickNonEmpty c.username d.username,
    hostname := pickNonEmpty c.hostname d.hostname,
    module := pickNonEmpty c.module d.module,
    directory := pickNonEmpty c.directory d.directory,
    port_number := pickPort c.port_number d.port_number }

/-- `destinations.py`, `expression` setter: try the patterns in order; on
the first match apply the non-empty captures, otherwise raise
`InvalidDestinationError`. -/
def setExpression (d : Destination) (value : String) : Except PyError Destination :=
  match matchFirstL value.data with
  | some caps => .ok (applyCaptures d caps)
  | none => .error .invalidDestinationError

/-- `Destination(expression=value)`: parsing an expression into a fresh
`Destination` whose fields hold their defaults. -/
def parse (value : String) : Except PyError Destination :=
  setExpression {} value

/-- `destinations.py`, `expression` getter, translated statement by
statement.  Returns `none` (Python `None`, which the required property
machinery turns into a missing-required-field `TypeError`) exactly when
both `hostname` and `directory` are empty. -/
def Destination.expression (d : Destination) : Option String :=
  if d.hostname = "" ∧ d.directory = "" then none
  else
    let value := if d.module != "" then "rsync://" else ""
    let value :=
      if d.hostname != "" then
        let value := if d.username != "" then value ++ d.username ++ "@" else value
        let value := value ++ d.hostname
        if d.module != "" then
          let value := if d.port_number != 0 then value ++ ":" ++ toString d.port_number else value
          value ++ "/" ++ d.module
        else value ++ ":"
      else value
    some (if d.directory != "" then value ++ d.directory else value)

/-- External side effects of one run of the orchestration engine: desktop
notifications and the commands executed against the source or destination
context.  The `rsyncWarning` event records the log warning for the
tolerated `partial transfer` exit statuses. -/
inductive Ev where
  | notifyStarting
  | notifyFinished
  | notifyFailed
  | cmdCryptdisksStart
  | cmdMount
  | cmdMkdir
  | cmdRsync
  | rsyncWarning
  | cmdCp
  | cmdRotate
deriving DecidableEq, Repr

/-- `__init__.py`, class `RsyncSystemBackup`: the configuration properties
used by `execute_helper` together with oracle fields that supply the
outcomes of the external commands and filesystem checks the code performs
(device availability from `/etc/crypttab`, unlock state, mount state,
command exit statuses). -/
structure EngineConfig where
  destination : Destination
  backup_enabled : Bool := true
  snapshot_enabled : Bool := true
  rotate_enabled : Bool := true
  notifications_enabled : Bool := true
  dry_run : Bool := false
  cryptoDevice : Option String := none
  /-- `/etc/crypttab` has an entry whose target equals `cryptoDevice`. -/
  cryptoEntryExists : Bool := true
  /-- `crypttab_entry.is_available`: the backing device file exists. -/
  cryptoAvailable : Bool := true
  /-- `crypttab_entry.is_unlocked` before `cryptdisks_start` is run. -/
  cryptoUnlocked : Bool := false
  /-- `cryptdisks_start` exits with status zero. -/
  unlockCmdOk : Bool := true
  /-- `crypttab_entry.is_unlocked` after `cryptdisks_start` was run. -/
  unlockedAfterCmd : Bool := true
  mount_point : Option String := none
  /-- `mountpoint MOUNT_POINT` succeeds before `mount` is run. -/
  mountActive : Bool := false
  /-- The `mount` command exits with status zero. -/
  mountCmdOk : Bool := true
  /-- `mountpoint MOUNT_POINT` succeeds after `mount` was run. -/
  mountActiveAfterCmd : Bool := true
  /-- `destination_context.is_directory(destination.directory)`. -/
  destDirExists : Bool := true
  /-- The `mkdir -p` command exits with status zero. -/
  mkdirCmdOk : Bool := true
  /-- The exit status of the `rsync` command (run with `check=False`). -/
  rsyncExit : Nat := 0
  /-- The `cp --archive --link` command exits with status zero. -/
  cpCmdOk : Bool := true
  /-- `rotate_backups.RotateBackups.rotate_backups` succeeds. -/
  rotateOk : Bool := true
deriving Repr

/-- Sequencing of two stateful steps: the second runs only when the first
did not raise, and the event traces are concatenated (Python statement
sequencing under exception propagation). -/
def seqE (r : List Ev × Option PyError) (k : Unit → List Ev × Option PyError) :
    List Ev × Option PyError :=
  match r with
  | (evs, some e) => (evs, some e)
  | (evs, none) =>
    let r2 := k ()
    (evs ++ r2.1, r2.2)

/-- `__init__.py`, `destination_context`: raises
`DestinationContextUnavailable` when the destination is an rsync daemon
module, otherwise an execution context is available. -/
def destinationContext (c : EngineConfig) : Option PyError :=
  if c.destination.module != "" then some .destinationContextUnavailable else none

/-- The preflight check at the top of `execute_helper`:
`if self.crypto_device and not self.crypto_device_available:` followed by
`raise MissingBackupDiskError(msg % (..., self.crypttab_entry.source_device))`.
Evaluating `crypto_device_available` parses `/etc/crypttab` using the
destination context, so a daemon-module destination raises
`DestinationContextUnavailable` here; a missing crypttab entry makes
`crypto_device_available` false and then dereferencing
`crypttab_entry.source_device` in the message raises `AttributeError`. -/
def preflight (c : EngineConfig) : List Ev × Option PyError :=
  match c.cryptoDevice with
  | none => ([], none)
  | some _ =>
    match destinationContext c with
    | some e => ([], some e)
    | none =>
      if !c.cryptoEntryExists then ([], some .attributeError)
      else if !c.cryptoAvailable then ([], some .missingBackupDiskError)
      else ([], none)

/-- `__init__.py`, `unlock_device`: when `crypto_device` is set and not yet
unlocked, run `cryptdisks_start` through the destination context; raise
`FailedToUnlockError` when the device is still locked afterwards. -/
def unlock_device (c : EngineConfig) : List Ev × Option PyError :=
  match c.cryptoDevice with
  | none => ([], none)
  | some _ =>
    if c.cryptoUnlocked then ([], none)
    else
      match destinationContext c with
      | some e => ([], some e)
      | none =>
        if !c.unlockCmdOk then ([.cmdCryptdisksStart], some .externalCommandFailed)
        else if !c.unlockedAfterCmd then ([.cmdCryptdisksStart], some .failedToUnlockError)
        else ([.cmdCryptdisksStart], none)

/-- `__init__.py`, `mount_filesystem`: when `mount_point` is set and not
already mounted, run `mount` through the destination context; raise
`FailedToMountError` when the mount point is still inactive afterwards.
`mount_point_active` tests through the destination context, so a
daemon-module destination raises `DestinationContextUnavailable`. -/
def mount_filesystem (c : EngineConfig) : List Ev × Option PyError :=
  match c.mount_point with
  | none => ([], none)
  | some _ =>
    match destinationContext c with
    | some e => ([], some e)
    | none =>
      if c.mountActive then ([], none)
      else if !c.mountCmdOk then ([.cmdMount], some .externalCommandFailed)
      else if !c.mountActiveAfterCmd then ([.cmdMount], some .failedToMountError)
      else ([.cmdMount], none)

/-- `__init__.py`, `transfer_changes`, lines 511-521: the handling of the
rsync exit status.  Statuses 0, 23 and 24 are treated as success; 23 and
24 additionally log a `partial transfer` warning; every other status
raises `cmd.error_type(cmd)`, i.e. `ExternalCommandFailed`. -/
def rsyncOutcome (rc : Nat) : List Ev × Option PyError :=
  if rc = 0 ∨ rc = 23 ∨ rc = 24 then
    (.cmdRsync :: (if rc != 0 then [.rsyncWarning] else []), none)
  else ([.cmdRsync], some .externalCommandFailed)

/-- `__init__.py`, `transfer_changes`: create a missing destination
directory (silently skipped when the destination is a daemon module,
because `DestinationContextUnavailable` is caught and ignored), then run
rsync and classify its exit status. -/
def transfer_changes (c : EngineConfig) : List Ev × Option PyError :=
  let mkdirStep : List Ev × Option PyError :=
    match destinationContext c with
    | some _ => ([], none)
    | none =>
      if c.destDirExists then ([], none)
      else if c.mkdirCmdOk then ([.cmdMkdir], none)
      else ([.cmdMkdir], some .externalCommandFailed)
  seqE mkdirStep fun _ => rsyncOutcome c.rsyncExit

/-- Python `str.rstrip('/')`: drop every trailing slash. -/
def rstripSlash (s : String) : String :=
  String.mk (((s.data.reverse).dropWhile (fun c => c = '/')).reverse)

/-- POSIX `os.path.dirname`: everything before the final slash; a head
that consists only of slashes is kept as is, otherwise its trailing
slashes are stripped. -/
def dirname (p : String) : String :=
  let l := p.data
  let keep := l.length - ((l.reverse).takeWhile (fun c => c != '/')).length
  let head := l.take keep
  if head.isEmpty ∨ head.all (fun c => c = '/') then String.mk head
  else String.mk ((head.reverse.dropWhile (fun c => c = '/')).reverse)

/-- `destinations.py`, `parent_directory`:
`os.path.dirname(self.directory.rstrip('/'))`, raising
`ParentDirectoryUnavailable` when the result is empty. -/
def Destination.parent_directory (d : Destination) : Except PyError String :=
  let dir := dirname (rstripSlash d.directory)
  if dir = "" then .error .parentDirectoryUnavailable else .ok dir

/-- `__init__.py`, `create_snapshot`: compute the snapshot pathname from
`parent_directory` (which may raise), then either log the command (dry
run) or run `cp --archive --link` through the destination context. -/
def create_snapshot (c : EngineConfig) : List Ev × Option PyError :=
  match c.destination.parent_directory with
  | .error e => ([], some e)
  | .ok _ =>
    if c.dry_run then ([], none)
    else
      match destinationContext c with
      | some e => ([], some e)
      | none =>
        if c.cpCmdOk then ([.cmdCp], none) else ([.cmdCp], some .externalCommandFailed)

/-- `__init__.py`, `rotate_snapshots`: build the rotation location from the
destination context (raises for daemon modules) and `parent_directory`
(may raise), then delegate to `rotate_backups`. -/
def rotate_snapshots (c : EngineConfig) : List Ev × Option PyError :=
  match destinationContext c with
  | some e => ([], some e)
  | none =>
    match c.destination.parent_directory with
    | .error e => ([], some e)
    | .ok _ =>
      if c.rotateOk then ([.cmdRotate], none) else ([.cmdRotate], some .externalCommandFailed)

/-- `notify_starting` / `notify_finished` / `notify_failed`: each calls
`notify_desktop` only when `notifications_enabled` holds. -/
def notifyEv (c : EngineConfig) (e : Ev) : List Ev :=
  if c.notifications_enabled then [e] else []

/-- `__init__.py`, `execute_helper`: the preflight crypto check, the start
notification, `unlock_device` (outside the `try` block), then the
protected block running `mount_filesystem`, `transfer_changes`,
`create_snapshot` and `rotate_snapshots` gated by their flags; on an
exception from the protected block `notify_failed` fires and the exception
is re-raised, on success `notify_finished` fires when `backup_enabled`. -/
def protectedPhases (c : EngineConfig) : List Ev × Option PyError :=
  seqE (mount_filesystem c) fun _ =>
  seqE (if c.backup_enabled then transfer_changes c else ([], none)) fun _ =>
  seqE (if c.snapshot_enabled then create_snapshot c else ([], none)) fun _ =>
  (if c.rotate_enabled then rotate_snapshots c else ([], none))

def execute_helper (c : EngineConfig) : List Ev × Option PyError :=
  seqE (preflight c) fun _ =>
    let startEvs := if c.backup_enabled then notifyEv c .notifyStarting else []
    match unlock_device c with
    | (uevs, some e) => (startEvs ++ uevs, some e)
    | (uevs, none) =>
      match protectedPhases c with
      | (ievs, some e) => (startEvs ++ uevs ++ ievs ++ notifyEv c .notifyFailed, some e)
      | (ievs, none) =>
        (startEvs ++ uevs ++ ievs ++ (if c.backup_enabled then notifyEv c .notifyFinished else []),
         none)

/-- `__init__.py`, `execute`: entering the destination context raises
`DestinationContextUnavailable` for daemon-module destinations, which is
caught and followed by a plain `execute_helper` call, so both branches
reduce to `execute_helper`. -/
def execute (c : EngineConfig) : List Ev × Option PyError :=
  execute_helper c

/-- `cli.py`, the phase actions handled by `enable_explicit_action`. -/
inductive PhaseAction where
  | backup
  | snapshot
  | rotate
deriving DecidableEq, Repr

/-- `cli.py`, `enable_explicit_action(options, explicit_action)`: set the
explicit action to `True` and `setdefault` the other two to `False`.  The
option dictionary is modelled as a partial map from the three actions to
booleans. -/
def enable_explicit_action (options : PhaseAction → Option Bool) (explicit : PhaseAction) :
    PhaseAction → Option Bool :=
  fun a => if a = explicit then some true else some ((options a).getD false)

/-- `__init__.py`: `backup_enabled`, `snapshot_enabled` and
`rotate_enabled` are mutable properties defaulting to `True`, so a flag
absent from the options resolves to `True`. -/
def resolvedFlag (options : PhaseAction → Option Bool) (a : PhaseAction) : Bool :=
  (options a).getD true

/-- The option dictionary produced by processing the explicitly requested
actions in command line order, starting from an empty dictionary. -/
def applyExplicitActions (reqs : List PhaseAction) : PhaseAction → Option Bool :=
  reqs.foldl enable_explicit_action (fun _ => none)

/-- `cli.py`, `main`, lines 300-324: the outcome of
`RsyncSystemBackup(**program_opts).execute()` determines the exit status.
No exception exits with status 0 (falling off the end of `main`);
`MissingBackupDiskError` while not connected to a terminal exits with
status 0; every other exception exits with status 1. -/
def main_exit (outcome : Option PyError) (connectedToTerminal : Bool) : Nat :=
  match outcome with
  | none => 0
  | some e =>
    if isRsyncSystemBackupError e then
      if e = .missingBackupDiskError then
        if !connectedToTerminal then 0 else 1
      else 1
    else 1

/-- `cli.py`, `main`: the first `try` block (command line parsing) exits
with status 1 on any exception; otherwise the engine runs and the second
handler applies. -/
def cli_main (parseFails : Bool) (c : EngineConfig) (connectedToTerminal : Bool) : Nat :=
  if parseFails then 1 else main_exit (execute c).2 connectedToTerminal

/-- The `[user@]` part of a serialized expression. -/
def userAt (d : Destination) : String :=
  if d.username = "" then "" else d.username ++ "@"

/-- The `[:port]` part of a serialized daemon expression: the getter
includes the port whenever `port_number` is truthy, i.e. non-zero. -/
def portSuffix (d : Destination) : String :=
  if d.port_number = 0 then "" else ":" ++ toString d.port_number

/-- Case-by-case description of the `expression` getter, written in the
shape of the specification text but with the behaviour the code actually
has: bare or `rsync://`-prefixed directory when the hostname is empty;
`rsync://[user@]host[:port]/module` followed directly by the directory for
daemon destinations, the port printed whenever it is non-zero; a
`[user@]host:directory` SSH expression otherwise; and `none` exactly when
both hostname and directory are empty. -/
def expressionSpec (d : Destination) : Option String :=
  if d.hostname = "" then
    if d.directory = "" then none
    else if d.module = "" then some d.directory
    else some ("rsync://" ++ d.directory)
  else if d.module = "" then
    some (userAt d ++ d.hostname ++ ":" ++ d.directory)
  else
    some ("rsync://" ++ userAt d ++ d.hostname ++ portSuffix d ++ "/" ++ d.module ++ d.directory)

/-- A capture that the `expression` setter filters out: the group did not
participate in the match or it captured the empty string (both are falsy
in the `if c` guard of the setter). -/
def emptyCap (o : Option String) : Prop := o = none ∨ o = some ""

/-- A minimal configuration exercising only the transfer phase decision: a
local destination whose directory already exists. -/
def transferOnly (rc : Nat) : EngineConfig :=
  { destination := { directory := "/mnt/backups/latest" }, rsyncExit := rc }

theorem spanP_all {p : Char → Bool} {l : List Char} (h : ∀ c ∈ l, p c = true) :
    spanP p l = (l, []) := by
  induction l with
  | nil => rfl
  | cons a t ih =>
    have ha := h a (List.mem_cons_self a t)
    have ht := ih fun c hc => h c (List.mem_cons_of_mem a hc)
    simp [spanP, ha, ht]

theorem spanP_append (p : Char → Bool) (l : List Char) :
    (spanP p l).1 ++ (spanP p l).2 = l := by
  induction l with
  | nil => rfl
  | cons a t ih =>
    by_cases hp : p a = true
    · simp [spanP, hp, ih]
    · simp [spanP, hp]

theorem userSplit_eq {l : List Char} {ur : List Char × List Char}
    (h : userSplit l = some ur) : l = ur.1 ++ '@' :: ur.2 := by
  have happ := spanP_append (fun c => c != '@') l
  unfold userSplit at h
  dsimp only at h
  split at h
  · next rest heq =>
    split at h
    · exact absurd h (by simp)
    · cases h
      show l = (spanP (fun c => c != '@') l).1 ++ '@' :: _
      rw [← heq]
      exact happ.symm
  · exact absurd h (by simp)

theorem sshCore_eq_none {l : List Char} (h : ∀ c ∈ l, c ≠ ':') : sshCore l = none := by
  have hs : spanP (fun c => c != ':') l = (l, []) :=
    spanP_all fun c hc => by simp [h c hc]
  simp only [sshCore, hs]
  split <;> rfl

theorem simpleCore_eq_none {l : List Char} (h : ∀ c ∈ l, c ≠ ':') : simpleCore l = none := by
  have hs : spanP (fun c => c != ':') l = (l, []) :=
    spanP_all fun c hc => by simp [h c hc]
  simp only [simpleCore, hs]
  split <;> rfl

theorem matchSSHL_eq_none {l : List Char} (h : ∀ c ∈ l, c ≠ ':') : matchSSHL l = none := by
  unfold matchSSHL
  split
  · next ur heq =>
    have h2 : ∀ c ∈ ur.2, c ≠ ':' := by
      intro c hc
      exact h c (by rw [userSplit_eq heq]; simp [hc])
    simp [sshCore_eq_none h2, sshCore_eq_none h]
  · exact sshCore_eq_none h

theorem matchSimpleL_eq_none {l : List Char} (h : ∀ c ∈ l, c ≠ ':') : matchSimpleL l = none := by
  unfold matchSimpleL
  split
  · next ur heq =>
    have h2 : ∀ c ∈ ur.2, c ≠ ':' := by
      intro c hc
      exact h c (by rw [userSplit_eq heq]; simp [hc])
    simp [simpleCore_eq_none h2, simpleCore_eq_none h]
  · exact simpleCore_eq_none h

theorem matchAdvancedL_eq_none {l : List Char} (h : ∀ c ∈ l, c ≠ ':') :
    matchAdvancedL l = none := by
  unfold matchAdvancedL
  split
  · next rest => exact absurd rfl (h ':' (by simp))
  · rfl

theorem matchLocalL_some {l : List Char} (hne : l ≠ []) (h : ∀ c ∈ l, c ≠ '\n') :
    matchLocalL l = some { directory := some (String.mk l) } := by
  have hs : spanP (fun c => c != '\n') l = (l, []) :=
    spanP_all fun c hc => by simp [h c hc]
  simp [matchLocalL, hs, hne]

theorem matchFirstL_local {l : List Char} (hA : matchAdvancedL l = none)
    (hS : matchSimpleL l = none) (hH : matchSSHL l = none) :
    matchFirstL l = matchLocalL l := by
  simp [matchFirstL, hA, hS, hH]

theorem matchFirstL_ne_none {l : List Char} (hL : matchLocalL l ≠ none) :
    matchFirstL l ≠ none := by
  unfold matchFirstL
  split
  · simp
  · split
    · simp
    · split
      · simp
      · exact hL

theorem string_data_ne_nil {s : String} (h : s ≠ "") : s.data ≠ [] := by
  intro hd
  exact h (String.ext hd)

theorem seqE_some {r : List Ev × Option PyError} {k : Unit → List Ev × Option PyError}
    {e : PyError} (h : r.2 = some e) : seqE r k = r := by
  cases r with
  | mk evs err =>
    cases err with
    | none => simp at h
    | some e2 => rfl

theorem seqE_none {r : List Ev × Option PyError} {k : Unit → List Ev × Option PyError}
    (h : r.2 = none) : seqE r k = (r.1 ++ (k ()).1, (k ()).2) := by
  cases r with
  | mk evs err =>
    cases err with
    | none => rfl
    | some e2 => simp at h

theorem foldl_enable_eq {t : List PhaseAction} (o : PhaseAction → Option Bool)
    (a : PhaseAction) (h : t ≠ []) :
    (t.foldl enable_explicit_action o) a = some (decide (a ∈ t) || (o a).getD false) := by
  induction t generalizing o with
  | nil => exact absurd rfl h
  | cons x xs ih =>
    simp only [List.foldl_cons]
    by_cases hxs : xs = []
    · subst hxs
      simp only [List.foldl_nil, enable_explicit_action]
      by_cases hax : a = x
      · simp [hax]
      · simp [hax]
    · rw [ih _ hxs]
      unfold enable_explicit_action
      by_cases hax : a = x
      · simp [hax]
      · simp [hax, List.mem_cons]

/-- Claim C1 (code bug).  The round-trip law fails for daemon-module
addresses with a non-empty directory: `server::module/path` parses to
hostname `server`, module `module`, directory `path`, but the `expression`
getter appends the directory directly after the module with no `/`
separator, producing `rsync://server:873/modulepath`, which re-parses with
module `modulepath` and empty directory.  This theorem evaluates the code
at the failing input. -/
theorem expression_roundtrip_module_path_divergence :
    parse "server::module/path" =
      .ok { hostname := "server", module := "module", directory := "path" } ∧
    ({ hostname := "server", module := "module", directory := "path" } :
      Destination).expression = some "rsync://server:873/modulepath" ∧
    parse "rsync://server:873/modulepath" =
      .ok { hostname := "server", module := "modulepath" } ∧
    ("modulepath" : String) ≠ "module" ∧ ("" : String) ≠ "path" := by decide

/-- Claim C2 (counterexample).  The claim states that the port is omitted
from the serialized daemon expression when it equals its default of 873;
the getter actually prints the port whenever it is non-zero, so the
destination `{hostname := "h", module := "m"}` with the default port 873
serializes to `rsync://h:873/m`, not `rsync://h/m`. -/
theorem expression_port_not_omitted_counterexample :
    ({ hostname := "h", module := "m" } : Destination).port_number = RSYNCD_PORT ∧
    ({ hostname := "h", module := "m" } : Destination).expression =
      some "rsync://h:873/m" ∧
    some "rsync://h:873/m" ≠ some "rsync://h/m" := by decide

/-- Claim C2 (amended).  The `expression` getter returns: when the
hostname is empty, the directory alone (prefixed with `rsync://` when a
module is set); `rsync://[user@]host[:port]/module` followed directly by
the directory when hostname and module are non-empty, with the port
printed whenever it is non-zero (in particular the default 873 is
printed, and the port is omitted only when it is 0); `[user@]host:` and
the directory when the hostname is non-empty and the module is empty; and
`none` (the missing-required-field error) exactly when both hostname and
directory are empty. -/
theorem expression_getter_cases (d : Destination) : d.expression = expressionSpec d := by
  unfold Destination.expression expressionSpec userAt portSuffix
  by_cases hh : d.hostname = "" <;> by_cases hm : d.module = "" <;>
    by_cases hd : d.directory = "" <;> by_cases hu : d.username = "" <;>
      by_cases hp : d.port_number = 0 <;>
        simp [hh, hm, hd, hu, hp, String.append_assoc, String.append_empty, String.empty_append]

/-- Claim C3 (counterexample).  The claim states that parsing fails with
`InvalidDestinationError` exactly on the empty string; the string made of
a single newline is non-empty and also fails, because `.` matches no
newline and `^(?P<directory>.+)$` therefore has no match. -/
theorem parse_newline_counterexample :
    ("\n" : String) ≠ "" ∧ parse "\n" = .error .invalidDestinationError := by decide

/-- Claim C3 (amended).  `parse("")` raises `InvalidDestinationError`, and
every non-empty expression containing no newline character is matched by
some grammar (the local-directory fallback matches it when no other
pattern does); only strings whose newlines defeat every pattern can
additionally fail. -/
theorem parse_empty_fails_and_nonnewline_matches :
    (parse "" = .error .invalidDestinationError) ∧
    (∀ s : String, s ≠ "" → (∀ c ∈ s.data, c ≠ '\n') → (parse s).isOk = true) := by
  refine ⟨by decide, ?_⟩
  intro s h0 h2
  have hl : s.data ≠ [] := string_data_ne_nil h0
  have hL : matchLocalL s.data ≠ none := by
    rw [matchLocalL_some hl h2]
    simp
  have hF := matchFirstL_ne_none hL
  unfold parse setExpression
  cases hm : matchFirstL s.data with
  | none => exact absurd hm hF
  | some caps => rfl

/-- Claim C3 (witness). -/
theorem parse_empty_fails_and_nonnewline_matches_witness :
    (parse "/backups").isOk = true :=
  parse_empty_fails_and_nonnewline_matches.2 "/backups" (by decide) (by decide)

/-- Claim C4 (counterexample).  The claim states that every non-empty
string without a colon and without the `rsync://` scheme parses to a
destination whose directory equals the whole string; `a` followed by a
newline is such a string, yet it parses to directory `a` because `$`
matches just before a newline that ends the string. -/
theorem parse_local_trailing_newline_counterexample :
    ("a\n" : String) ≠ "" ∧ (∀ c ∈ ("a\n" : String).data, c ≠ ':') ∧
    ¬ ("a\n" : String).startsWith "rsync://" ∧
    parse "a\n" = .ok { directory := "a" } ∧ ("a" : String) ≠ "a\n" := by decide

/-- Claim C4 (amended).  Every non-empty string without a colon and
without a newline character fails the three remote grammars, is matched
by the local-directory fallback, and parses to a destination whose
directory is the whole string while hostname, username and module remain
empty and the port keeps its default of 873. -/
theorem parse_local_path_fields (s : String) (h0 : s ≠ "")
    (h1 : ∀ c ∈ s.data, c ≠ ':') (h2 : ∀ c ∈ s.data, c ≠ '\n') :
    parse s = .ok { directory := s } := by
  have hl : s.data ≠ [] := string_data_ne_nil h0
  have hF : matchFirstL s.data = some { directory := some (String.mk s.data) } := by
    rw [matchFirstL_local (matchAdvancedL_eq_none h1) (matchSimpleL_eq_none h1)
      (matchSSHL_eq_none h1)]
    exact matchLocalL_some hl h2
  have hmk : String.mk s.data = s := rfl
  rw [hmk] at hF
  simp [parse, setExpression, hF, applyCaptures, pickNonEmpty, pickPort, h0]

/-- Claim C4 (witness). -/
theorem parse_local_path_fields_witness :
    parse "/mnt/backups" = .ok { directory := "/mnt/backups" } :=
  parse_local_path_fields "/mnt/backups" (by decide) (by decide) (by decide)

/-- Claim C5 (confirmed).  In the transfer phase an rsync exit status of
0, 23 or 24 is treated as success (no exception is raised; a warning is
logged exactly for 23 and 24), and every other exit status raises the
transfer-failure error `ExternalCommandFailed`. -/
theorem transfer_exit_status_policy (rc : Nat) :
    ((rsyncOutcome rc).2 = none ↔ (rc = 0 ∨ rc = 23 ∨ rc = 24)) ∧
    ((rsyncOutcome rc).2 = none ∨ (rsyncOutcome rc).2 = some .externalCommandFailed) ∧
    (Ev.rsyncWarning ∈ (rsyncOutcome rc).1 ↔ (rc = 23 ∨ rc = 24)) ∧
    ((transfer_changes (transferOnly rc)).2 = none ↔ (rc = 0 ∨ rc = 23 ∨ rc = 24)) := by
  have htc : (transfer_changes (transferOnly rc)).2 = (rsyncOutcome rc).2 := rfl
  by_cases h0 : rc = 0
  · subst h0; decide
  · by_cases h23 : rc = 23
    · subst h23; decide
    · by_cases h24 : rc = 24
      · subst h24; decide
      · have h : ¬ (rc = 0 ∨ rc = 23 ∨ rc = 24) := by tauto
        rw [htc]
        simp [rsyncOutcome, h, h0, h23, h24]

/-- Claim C6 (confirmed).  A phase flag resolves to `True` when no action
was explicitly requested, and to whether it was itself among the
explicitly requested actions otherwise: with no explicit request all
three flags are `True`; with exactly one request the other two are
`False`; with several requests exactly the requested ones are `True`. -/
theorem phase_flag_resolution (reqs : List PhaseAction) (a : PhaseAction) :
    resolvedFlag (applyExplicitActions reqs) a = (reqs.isEmpty || decide (a ∈ reqs)) := by
  cases reqs with
  | nil => rfl
  | cons x xs =>
    unfold resolvedFlag applyExplicitActions
    rw [foldl_enable_eq _ a (by simp)]
    simp

/-- Claim C7 (counterexample).  The claim states that whenever
`crypto_device` is set and its backing device file is absent, `execute()`
raises `MissingBackupDiskError`; with a daemon-module destination the
availability check itself needs the destination context, so
`DestinationContextUnavailable` is raised instead. -/
theorem missing_disk_daemon_module_counterexample :
    ({ destination := { hostname := "server", module := "backups" },
       cryptoDevice := some "backups", cryptoEntryExists := true,
       cryptoAvailable := false } : EngineConfig).cryptoDevice.isSome = true ∧
    execute { destination := { hostname := "server", module := "backups" },
              cryptoDevice := some "backups", cryptoEntryExists := true,
              cryptoAvailable := false } =
      ([], some .destinationContextUnavailable) ∧
    (PyError.destinationContextUnavailable ≠ PyError.missingBackupDiskError) := by decide

/-- Claim C7 (amended).  When `crypto_device` is set, its crypttab entry
exists, its backing device file is absent, and the destination is not an
rsync daemon module, `execute()` raises `MissingBackupDiskError` with an
empty event trace: no notification fires and no unlock, mount, transfer,
snapshot or rotate command runs, so all external state is unchanged. -/
theorem execute_missing_disk_empty_trace (c : EngineConfig)
    (h1 : c.cryptoDevice.isSome = true) (h2 : c.cryptoEntryExists = true)
    (h3 : c.cryptoAvailable = false) (h4 : c.destination.module = "") :
    execute c = ([], some .missingBackupDiskError) := by
  obtain ⟨dev, hdev⟩ := Option.isSome_iff_exists.mp h1
  have hpre : preflight c = ([], some .missingBackupDiskError) := by
    unfold preflight destinationContext
    rw [hdev]
    simp [h2, h3, h4]
  rw [execute, execute_helper, seqE_some (by rw [hpre])]
  rw [hpre]

/-- Claim C7 (witness). -/
theorem execute_missing_disk_empty_trace_witness :
    execute { destination := { directory := "/mnt/backups/latest" },
              mount_point := some "/mnt/backups",
              cryptoDevice := some "backups", cryptoAvailable := false } =
      ([], some .missingBackupDiskError) :=
  execute_missing_disk_empty_trace _ (by decide) (by decide) (by decide) (by decide)

/-- Claim C8 (counterexample).  The claim states that a failure in any
phase after the start notification, including unlock, fires the failure
notification before the error escapes; `unlock_device` however runs
before the `try` block, so a failing `cryptdisks_start` escapes with no
`notifyFailed` event in the trace. -/
theorem unlock_failure_without_notification :
    execute { destination := { directory := "/mnt/backups/latest" },
              cryptoDevice := some "backups", unlockCmdOk := false } =
      ([Ev.notifyStarting, Ev.cmdCryptdisksStart], some .externalCommandFailed) ∧
    Ev.notifyFailed ∉
      (execute { destination := { directory := "/mnt/backups/latest" },
                 cryptoDevice := some "backups", unlockCmdOk := false }).1 := by decide

/-- Claim C8 (amended).  For every run with `backup_enabled` and
notifications enabled in which the preflight check and `unlock_device`
succeed but the protected block (mount, transfer, snapshot or rotate)
raises, the failure notification fires before the error propagates out of
`execute`; an unlock failure, by contrast, escapes without it. -/
theorem notify_failed_before_protected_error (c : EngineConfig) (e : PyError)
    (_hb : c.backup_enabled = true) (hn : c.notifications_enabled = true)
    (hpre : (preflight c).2 = none) (hun : (unlock_device c).2 = none)
    (hfail : (execute c).2 = some e) :
    Ev.notifyFailed ∈ (execute c).1 := by
  rw [execute, execute_helper, seqE_none hpre] at hfail ⊢
  cases hu : unlock_device c with
  | mk uevs uerr =>
    cases uerr with
    | some e2 => rw [hu] at hun; simp at hun
    | none =>
      simp only [hu] at hfail ⊢
      cases hp : protectedPhases c with
      | mk ievs ierr =>
        simp only [hp] at hfail ⊢
        cases ierr with
        | some e2 => simp [notifyEv, hn]
        | none => simp at hfail

/-- Claim C8 (witness). -/
theorem notify_failed_before_protected_error_witness :
    Ev.notifyFailed ∈
      (execute { destination := { directory := "/mnt/backups/latest" },
                 mount_point := some "/mnt/backups", mountCmdOk := false }).1 :=
  notify_failed_before_protected_error
    { destination := { directory := "/mnt/backups/latest" },
      mount_point := some "/mnt/backups", mountCmdOk := false }
    .externalCommandFailed (by decide) (by decide) (by decide) (by decide) (by decide)

/-- Claim C9 (confirmed).  The command line entry point exits with status
0 or 1; it exits with 0 exactly when the run succeeded or when the
failure is `MissingBackupDiskError` while no interactive terminal is
connected, and with 1 for every other failure. -/
theorem cli_exit_code_policy (o : Option PyError) (t : Bool) :
    (main_exit o t = 0 ∨ main_exit o t = 1) ∧
    (main_exit o t = 0 ↔ (o = none ∨ (o = some .missingBackupDiskError ∧ t = false))) := by
  cases o with
  | none => simp [main_exit]
  | some e => cases e <;> cases t <;> simp [main_exit, isRsyncSystemBackupError]

/-- Claim C10 (confirmed).  Assigning an expression to an existing
destination only overwrites the fields whose captures are non-empty:
every field whose capture is missing or empty keeps its current value,
and a non-empty directory capture becomes the new directory. -/
theorem expression_setter_frame (d : Destination) (s : String) (d' : Destination)
    (caps : Captures) (hm : matchFirstL s.data = some caps)
    (h : setExpression d s = .ok d') :
    (emptyCap caps.username → d'.username = d.username) ∧
    (emptyCap caps.hostname → d'.hostname = d.hostname) ∧
    (emptyCap caps.module → d'.module = d.module) ∧
    (emptyCap caps.directory → d'.directory = d.directory) ∧
    (emptyCap caps.port_number → d'.port_number = d.port_number) ∧
    (∀ v, caps.directory = some v → v ≠ "" → d'.directory = v) := by
  unfold setExpression at h
  rw [hm] at h
  cases h
  refine ⟨?_, ?_, ?_, ?_, ?_, ?_⟩
  · rintro (hc | hc) <;> simp [applyCaptures, pickNonEmpty, hc]
  · rintro (hc | hc) <;> simp [applyCaptures, pickNonEmpty, hc]
  · rintro (hc | hc) <;> simp [applyCaptures, pickNonEmpty, hc]
  · rintro (hc | hc) <;> simp [applyCaptures, pickNonEmpty, hc]
  · rintro (hc | hc) <;> simp [applyCaptures, pickPort, hc]
  · intro v hv hne
    simp [applyCaptures, pickNonEmpty, hv, hne]

/-- Claim C10 (witness): parsing the daemon address `server::mod` and then
assigning the local path `/tmp/x` to the same destination keeps the
hostname and module from the first parse alongside the new directory. -/
theorem expression_setter_frame_witness :
    ({ hostname := "server", module := "mod", directory := "/tmp/x" } :
        Destination).hostname =
      ({ hostname := "server", module := "mod" } : Destination).hostname ∧
    ({ hostname := "server", module := "mod", directory := "/tmp/x" } :
        Destination).module =
      ({ hostname := "server", module := "mod" } : Destination).module ∧
    ({ hostname := "server", module := "mod", directory := "/tmp/x" } :
        Destination).directory = "/tmp/x" :=
  ⟨(expression_setter_frame { hostname := "server", module := "mod" } "/tmp/x"
      { hostname := "server", module := "mod", directory := "/tmp/x" }
      { directory := some "/tmp/x" } (by decide) (by decide)).2.1 (Or.inl rfl),
   (expression_setter_frame { hostname := "server", module := "mod" } "/tmp/x"
      { hostname := "server", module := "mod", directory := "/tmp/x" }
      { directory := some "/tmp/x" } (by decide) (by decide)).2.2.1 (Or.inl rfl),
   (expression_setter_frame { hostname := "server", module := "mod" } "/tmp/x"
      { hostname := "server", module := "mod", directory := "/tmp/x" }
      { directory := some "/tmp/x" } (by decide) (by decide)).2.2.2.2.2 "/tmp/x" rfl
     (by decide)⟩
